import Mathlib

/-!
Verification of the E01 demo pipeline (`scripts/run_e01_demo.py` and
`src/viz.py`): a shallow embedding of the data model, the loader, the
validator, the two chart functions and the orchestrator `main`, together
with theorems settling the specification's claims.

External collaborators (pathlib, pandas parsing/IO, seaborn/matplotlib,
plotly, the filesystem) are modelled as oracle fields of an `Env` record:
the pipeline's own control flow and all decisions it takes on the oracles'
answers are translated faithfully from the source.
-/

namespace E01

/-- A single cell of a data frame: a string, an integer, or a missing
value (pandas `NaN`).  The demo fixture only ever holds strings and
integers; `nan` arises from `pd.to_numeric(..., errors="coerce")`. -/
inductive Cell where
  | str (s : String)
  | num (n : Int)
  | nan
deriving Repr, DecidableEq

/-- A named column with its pandas dtype summarised as `numeric : Bool`
(the only dtype property the program inspects, via
`pd.api.types.is_numeric_dtype`). -/
structure Column where
  name : String
  numeric : Bool
  values : List Cell
deriving Repr, DecidableEq

/-- A pandas `DataFrame`: named columns plus the row count (`len(df)`). -/
structure DataFrame where
  cols : List Column
  nrows : Nat
deriving Repr, DecidableEq

def DataFrame.colNames (df : DataFrame) : List String :=
  df.cols.map (fun c => c.name)

/-- `c in df.columns`. -/
def DataFrame.hasCol (df : DataFrame) (c : String) : Bool :=
  df.colNames.contains c

/-- `pd.api.types.is_numeric_dtype(df[c])` (first column of that name;
`false` when the column is absent). -/
def DataFrame.colNumeric (df : DataFrame) (c : String) : Bool :=
  match df.cols.find? (fun col => col.name = c) with
  | some col => col.numeric
  | none => false

def REQUIRED_COLUMNS : List String := ["month", "sales", "ad_spend"]

/-- `build_demo_data`: the fixed built-in 6-row fixture. -/
def build_demo_data : DataFrame :=
  { cols :=
      [ { name := "month", numeric := false,
          values := [.str "Jan", .str "Feb", .str "Mar",
                     .str "Apr", .str "May", .str "Jun"] },
        { name := "sales", numeric := true,
          values := [.num 120, .num 135, .num 128,
                     .num 160, .num 172, .num 190] },
        { name := "ad_spend", numeric := true,
          values := [.num 20, .num 22, .num 21,
                     .num 26, .num 27, .num 30] } ],
    nrows := 6 }

/-- The two structural loader failures: `FileNotFoundError` and the
`ValueError` for a non-CSV extension. -/
inductive LoadErr where
  | notFound (p : String)
  | unsupportedFormat (p : String)
deriving Repr, DecidableEq

/-- The external world of one run: pathlib/filesystem answers, pandas
parsing, and success/failure of each library-mediated write.  Each field
records what the corresponding external call would do in this run. -/
structure Env where
  /-- `datetime.now().isoformat(timespec="seconds")` -/
  timestamp : String
  /-- `str(Path(s).expanduser())` -/
  expand : String → String
  /-- `Path(p).exists()` -/
  pathExists : String → Bool
  /-- `Path(p).suffix` of the expanded path -/
  suffix : String → String
  /-- `pd.read_csv(p)` -/
  readCsv : String → DataFrame
  /-- numeral parsing inside `pd.to_numeric(..., errors="coerce")` -/
  parseNum : String → Option Int
  /-- `df.to_csv(df_path, index=False)` raises -/
  csvWriteThrows : Bool
  /-- `write_text_stats(df, stats_path)` raises -/
  statsWriteThrows : Bool
  /-- `df_path.exists()` after a successful write pair -/
  csvExists : Bool
  /-- `stats_path.exists()` after a successful write pair -/
  statsExists : Bool
  /-- seaborn/matplotlib rendering or `fig.savefig` raises -/
  staticLibThrows : Bool
  /-- `png_path.exists()` after a successful static render -/
  pngExists : Bool
  /-- plotly rendering or `fig_i.write_html` raises -/
  interactiveLibThrows : Bool
  /-- `html_path.exists()` after a successful interactive render -/
  htmlExists : Bool

/-- Python's `str.lower()` (character-wise lowercasing; the suffixes
compared here are ASCII). -/
def strLower (s : String) : String :=
  ⟨s.data.map Char.toLower⟩

/-- `load_data(input_path)`: built-in fixture when the argument is falsy
(absent or the empty string), otherwise existence check, extension check,
then CSV parse.  Returns the data frame and the source descriptor. -/
def load_data (env : Env) (input_path : Option String) :
    Except LoadErr (DataFrame × String) :=
  match input_path with
  | none => .ok (build_demo_data, "built-in demo data")
  | some s =>
    if s = "" then .ok (build_demo_data, "built-in demo data")
    else
      let p := env.expand s
      if !(env.pathExists p) then .error (.notFound p)
      else if strLower (env.suffix p) ≠ ".csv" then .error (.unsupportedFormat p)
      else .ok (env.readCsv p, "csv:" ++ p)

/-- The validation record returned by `validate_dataframe`. -/
structure ValidationInfo where
  required_columns : List String
  columns_present : List String
  missing_columns : List String
  dtype_issues : List String
  row_count : Nat
deriving Repr, DecidableEq

def salesDtypeMsg : String := "sales 不是数值型（建议为 int/float）"

def adSpendDtypeMsg : String := "ad_spend 不是数值型（建议为 int/float）"

/-- `validate_dataframe(df)`: never raises; reports missing required
columns in required order, dtype advisories for non-numeric
`sales`/`ad_spend`, and the row count. -/
def validate_dataframe (df : DataFrame) : ValidationInfo :=
  { required_columns := REQUIRED_COLUMNS
    columns_present := df.colNames
    missing_columns := REQUIRED_COLUMNS.filter (fun c => !(df.hasCol c))
    dtype_issues :=
      (if df.hasCol "sales" && !(df.colNumeric "sales")
       then [salesDtypeMsg] else [])
      ++
      (if df.hasCol "ad_spend" && !(df.colNumeric "ad_spend")
       then [adSpendDtypeMsg] else [])
    row_count := df.nrows }

/-- The `ValueError` raised by both chart functions on a missing column. -/
inductive VizError where
  | missingColumn (x y : String)
deriving Repr, DecidableEq

/-- `plot_sales_vs_ads_static(df, x, y)` (src/viz.py): raises when `x`
or `y` is absent; otherwise the seaborn/matplotlib figure construction is
an external collaborator and the column validation succeeds. -/
def plot_sales_vs_ads_static (df : DataFrame) (x y : String) :
    Except VizError Unit :=
  if !(df.hasCol x) || !(df.hasCol y) then .error (.missingColumn x y)
  else .ok ()

/-- `plot_sales_vs_ads_interactive(df, x, y)` (src/viz.py): same column
validation, plotly figure construction external. -/
def plot_sales_vs_ads_interactive (df : DataFrame) (x y : String) :
    Except VizError Unit :=
  if !(df.hasCol x) || !(df.hasCol y) then .error (.missingColumn x y)
  else .ok ()

/-- `pd.to_numeric` on one cell: numbers kept, parsable strings parsed,
everything else becomes `NaN` (`errors="coerce"`). -/
def to_numeric_cell (env : Env) : Cell → Cell
  | .num n => .num n
  | .nan => .nan
  | .str s =>
    match env.parseNum s with
    | some n => .num n
    | none => .nan

/-- The in-place coercion step of `main`: each of `sales`, `ad_spend`
present in the frame is converted to a numeric column. -/
def coerce_numeric (env : Env) (df : DataFrame) : DataFrame :=
  { df with
    cols := df.cols.map (fun col =>
      if col.name = "sales" || col.name = "ad_spend" then
        { col with numeric := true,
                   values := col.values.map (to_numeric_cell env) }
      else col) }

/-- The `checks` sub-dictionary of the report.  A Python dict key can be
absent (`none` here), and the two chart flags can additionally hold the
JSON value `null` (`some none`). -/
structure Checks where
  data_load_ok : Option Bool := none
  data_validation : Option ValidationInfo := none
  artifacts_csv_ok : Option Bool := none
  artifacts_stats_ok : Option Bool := none
  plots_skipped : Option Bool := none
  static_png_ok : Option (Option Bool) := none
  interactive_html_ok : Option (Option Bool) := none
deriving Repr, DecidableEq

/-- The `artifacts` sub-dictionary: the four fixed output paths. -/
structure Artifacts where
  csv : String
  stats : String
  static_png : String
  interactive_html : String
deriving Repr, DecidableEq

/-- The run report built by `main` and serialized by `_write_report`.
All top-level keys exist from the skeleton onward. -/
structure Report where
  experiment : String
  timestamp : String
  outdir : String
  input : Option String
  data_source : Option String
  checks : Checks
  artifacts : Artifacts
  pass : Bool
  score : Nat
  messages : List String
deriving Repr, DecidableEq

/-- The parsed command line. -/
structure Args where
  outdir : String := "outputs/e01"
  input : Option String := none
  no_plots : Bool := false
  strict : Bool := false
deriving Repr, DecidableEq

/-- Python truthiness of `report["checks"].get(k)` for a boolean-valued
key: `None` and `False` are falsy. -/
def truthy : Option Bool → Bool
  | some b => b
  | none => false

/-- Truthiness for the chart flags, whose value can itself be `None`. -/
def truthy2 : Option (Option Bool) → Bool
  | some (some b) => b
  | _ => false

def exceptThrows {ε α : Type} : Except ε α → Bool
  | .error _ => true
  | .ok _ => false

/-- The message recorded when the csv/txt output block raises (the
Python message interpolates the exception text; which of the two writes
raised determines the exception seen). -/
def artifactsErrMsg (env : Env) : String :=
  "[ERROR] 输出 csv/txt 失败：" ++
    (if env.csvWriteThrows then "csv write error" else "stats write error")

/-- The warning recorded when the minimal data requirement fails. -/
def warnMsg (vinfo : ValidationInfo) : String :=
  "[WARN] 数据不满足最小要求：缺失字段=" ++
    String.intercalate "," vinfo.missing_columns ++
    "，行数=" ++ toString vinfo.row_count

def staticErrMsg : String := "[ERROR] 生成静态图失败：static render error"

def interactiveErrMsg : String := "[ERROR] 生成交互图失败：interactive render error"

/-- `data_ok` as computed by `main` from the validation record. -/
def dataOkOf (df0 : DataFrame) : Bool :=
  (validate_dataframe df0).missing_columns.isEmpty
    && decide (0 < (validate_dataframe df0).row_count)

/-- Whether the static-chart block raises: column validation inside
`plot_sales_vs_ads_static` (called with its defaults) or any library
failure up to and including `fig.savefig`. -/
def staticAttemptThrows (env : Env) (df : DataFrame) : Bool :=
  exceptThrows (plot_sales_vs_ads_static df "ad_spend" "sales")
    || env.staticLibThrows

/-- Whether the interactive-chart block raises. -/
def interactiveAttemptThrows (env : Env) (df : DataFrame) : Bool :=
  exceptThrows (plot_sales_vs_ads_interactive df "ad_spend" "sales")
    || env.interactiveLibThrows

/-- The result of one run: the process exit code, the report handed to
`_write_report`, and the final values of the `data_ok` and `plots_ok`
locals (meaningful only when the loader succeeded). -/
structure MainState where
  exitCode : Nat
  report : Report
  data_ok : Bool
  plots_ok : Bool
deriving Repr, DecidableEq

/-- Everything `main` does after `load_data` returned `(df0, source_desc)`
and the skeleton report `report0` was built: validation, coercion,
artifact writes, optional charts, scoring, verdict, exit code. -/
def mainAfterLoad (args : Args) (env : Env) (report0 : Report)
    (df0 : DataFrame) (source_desc : String) : MainState :=
  let report1 := { report0 with
    data_source := some source_desc,
    checks := { report0.checks with data_load_ok := some true } }
  let vinfo := validate_dataframe df0
  let report2 := { report1 with
    checks := { report1.checks with data_validation := some vinfo } }
  let data_ok := dataOkOf df0
  let df := coerce_numeric env df0
  let report3 :=
    if data_ok then report2
    else { report2 with messages := report2.messages ++ [warnMsg vinfo] }
  let report4 :=
    if env.csvWriteThrows || env.statsWriteThrows then
      { report3 with
        messages := report3.messages ++ [artifactsErrMsg env],
        checks := { report3.checks with
          artifacts_csv_ok := some false,
          artifacts_stats_ok := some false } }
    else
      { report3 with
        checks := { report3.checks with
          artifacts_csv_ok := some env.csvExists,
          artifacts_stats_ok := some env.statsExists } }
  let stateAfterPlots : Report × Bool :=
    if args.no_plots then
      ({ report4 with
         checks := { report4.checks with
           plots_skipped := some true,
           static_png_ok := some none,
           interactive_html_ok := some none } }, true)
    else
      let r0 := { report4 with
        checks := { report4.checks with plots_skipped := some false } }
      let step1 : Report × Bool :=
        if staticAttemptThrows env df then
          ({ r0 with
             checks := { r0.checks with static_png_ok := some (some false) },
             messages := r0.messages ++ [staticErrMsg] },
           false)
        else
          ({ r0 with
             checks := { r0.checks with
               static_png_ok := some (some env.pngExists) } }, true)
      let r1 := step1.1
      let step2 : Report × Bool :=
        if interactiveAttemptThrows env df then
          ({ r1 with
             checks := { r1.checks with
               interactive_html_ok := some (some false) },
             messages := r1.messages ++ [interactiveErrMsg] },
           false)
        else
          ({ r1 with
             checks := { r1.checks with
               interactive_html_ok := some (some env.htmlExists) } }, true)
      (step2.1, step1.2 && step2.2)
  let report5 := stateAfterPlots.1
  let plots_ok := stateAfterPlots.2
  let score :=
    (if truthy report5.checks.data_load_ok then 20 else 0)
    + (if data_ok then 30 else 0)
    + (if truthy report5.checks.artifacts_csv_ok then 10 else 0)
    + (if truthy report5.checks.artifacts_stats_ok then 10 else 0)
    + (if args.no_plots then 10
       else
         (if truthy2 report5.checks.static_png_ok then 15 else 0)
         + (if truthy2 report5.checks.interactive_html_ok then 15 else 0))
  let artifacts_ok := truthy report5.checks.artifacts_csv_ok
    && truthy report5.checks.artifacts_stats_ok
  let plots_pass :=
    if args.no_plots then true
    else truthy2 report5.checks.static_png_ok
      && truthy2 report5.checks.interactive_html_ok
  let passed := data_ok && artifacts_ok && plots_pass && plots_ok
  let report6 := { report5 with score := score, pass := passed }
  { exitCode := if args.strict && !passed then 1 else 0,
    report := report6,
    data_ok := data_ok,
    plots_ok := plots_ok }

/-- The message recorded on a loader failure (Python interpolates the
exception's own text). -/
def loadErrMsg : LoadErr → String
  | .notFound p => "[ERROR] 数据读取失败：--input 文件不存在：" ++ p
  | .unsupportedFormat p => "[ERROR] 数据读取失败：--input 目前仅支持 CSV 文件：" ++ p

/-- The skeleton report built at the top of `main`, before any stage
runs: all top-level keys present, `checks` empty. -/
def skeletonReport (args : Args) (env : Env) : Report :=
  { experiment := "E01"
    timestamp := env.timestamp
    outdir := args.outdir
    input := args.input
    data_source := none
    checks := {}
    artifacts :=
      { csv := args.outdir ++ "/e01_demo_data.csv"
        stats := args.outdir ++ "/e01_demo_stats.txt"
        static_png := args.outdir ++ "/sales_vs_ads_static.png"
        interactive_html := args.outdir ++ "/sales_vs_ads_interactive.html" }
    pass := false
    score := 0
    messages := [] }

/-- `main()`: builds the skeleton report, runs `load_data`, and on a
structural failure records it, hands the report to `_write_report` and
exits with code 2; otherwise runs the rest of the pipeline. -/
def main (args : Args) (env : Env) : MainState :=
  let report0 := skeletonReport args env
  match load_data env args.input with
  | .error e =>
    { exitCode := 2,
      report := { report0 with
        messages := report0.messages ++ [loadErrMsg e],
        checks := { report0.checks with data_load_ok := some false } },
      data_ok := false,
      plots_ok := true }
  | .ok (df0, source_desc) => mainAfterLoad args env report0 df0 source_desc

/-! ### Closed forms of the run's outputs

Per-field descriptions of what a run that got past the loader records,
used to state and prove the claims. -/

/-- Final value of `checks["artifacts_csv_ok"]`: the whole csv/txt block
is one `try`, so a failure of either write forces `false`. -/
def artifactsCsvFlagOf (env : Env) : Option Bool :=
  some (if env.csvWriteThrows || env.statsWriteThrows then false
        else env.csvExists)

/-- Final value of `checks["artifacts_stats_ok"]`. -/
def artifactsStatsFlagOf (env : Env) : Option Bool :=
  some (if env.csvWriteThrows || env.statsWriteThrows then false
        else env.statsExists)

/-- Final value of `checks["static_png_ok"]` (`df` is the coerced frame
handed to the chart calls). -/
def staticFlagOf (args : Args) (env : Env) (df : DataFrame) :
    Option (Option Bool) :=
  if args.no_plots then some none
  else if staticAttemptThrows env df then some (some false)
  else some (some env.pngExists)

/-- Final value of `checks["interactive_html_ok"]`. -/
def interactiveFlagOf (args : Args) (env : Env) (df : DataFrame) :
    Option (Option Bool) :=
  if args.no_plots then some none
  else if interactiveAttemptThrows env df then some (some false)
  else some (some env.htmlExists)

/-- Final value of the `plots_ok` local: true when charts are skipped or
neither chart block raised. -/
def plotsOkOf (args : Args) (env : Env) (df : DataFrame) : Bool :=
  args.no_plots
    || (!(staticAttemptThrows env df) && !(interactiveAttemptThrows env df))

/-- The messages appended after a successful load, in order: the data
warning, the artifact-write error, then the chart errors. -/
def messagesOf (args : Args) (env : Env) (df0 df : DataFrame) :
    List String :=
  (if dataOkOf df0 then [] else [warnMsg (validate_dataframe df0)])
  ++ (if env.csvWriteThrows || env.statsWriteThrows
      then [artifactsErrMsg env] else [])
  ++ (if args.no_plots then []
      else
        (if staticAttemptThrows env df then [staticErrMsg] else [])
        ++ (if interactiveAttemptThrows env df then [interactiveErrMsg] else []))

/-- The final score. -/
def scoreOf (args : Args) (env : Env) (df0 df : DataFrame) : Nat :=
  20 + (if dataOkOf df0 then 30 else 0)
  + (if truthy (artifactsCsvFlagOf env) then 10 else 0)
  + (if truthy (artifactsStatsFlagOf env) then 10 else 0)
  + (if args.no_plots then 10
     else
       (if truthy2 (staticFlagOf args env df) then 15 else 0)
       + (if truthy2 (interactiveFlagOf args env df) then 15 else 0))

/-- The final pass verdict. -/
def passOf (args : Args) (env : Env) (df0 df : DataFrame) : Bool :=
  dataOkOf df0
  && (truthy (artifactsCsvFlagOf env) && truthy (artifactsStatsFlagOf env))
  && (if args.no_plots then true
      else truthy2 (staticFlagOf args env df)
        && truthy2 (interactiveFlagOf args env df))
  && plotsOkOf args env df

/-- The full state of a run that got past the loader, field by field. -/
def afterLoadState (args : Args) (env : Env) (rep0 : Report)
    (df0 : DataFrame) (source_desc : String) : MainState :=
  let df := coerce_numeric env df0
  { exitCode :=
      if args.strict && !(passOf args env df0 df) then 1 else 0
    report := { rep0 with
      data_source := some source_desc
      checks :=
        { data_load_ok := some true
          data_validation := some (validate_dataframe df0)
          artifacts_csv_ok := artifactsCsvFlagOf env
          artifacts_stats_ok := artifactsStatsFlagOf env
          plots_skipped := some args.no_plots
          static_png_ok := staticFlagOf args env df
          interactive_html_ok := interactiveFlagOf args env df }
      pass := passOf args env df0 df
      score := scoreOf args env df0 df
      messages := rep0.messages ++ messagesOf args env df0 df }
    data_ok := dataOkOf df0
    plots_ok := plotsOkOf args env df }

/-- `data_ok` as read back from a report: the recorded validation has no
missing column and a positive row count (false when validation never
ran). -/
def reportDataOk (r : Report) : Bool :=
  match r.checks.data_validation with
  | some v => v.missing_columns.isEmpty && decide (0 < v.row_count)
  | none => false

/-! ### Concrete runs used to witness the theorems -/

/-- A run in which every external call succeeds. -/
def envHappy : Env :=
  { timestamp := "2026-01-01T00:00:00"
    expand := fun s => s
    pathExists := fun _ => false
    suffix := fun _ => ""
    readCsv := fun _ => build_demo_data
    parseNum := fun _ => none
    csvWriteThrows := false
    statsWriteThrows := false
    csvExists := true
    statsExists := true
    staticLibThrows := false
    pngExists := true
    interactiveLibThrows := false
    htmlExists := true }

/-- Like `envHappy` but the stats-file write raises while the CSV write
succeeds. -/
def envStatsFail : Env := { envHappy with statsWriteThrows := true }

/-- Like `envHappy` but one concrete file exists, with a `.CSV` suffix. -/
def envCsvUpper : Env :=
  { envHappy with
    pathExists := fun p => p = "data/e01.CSV"
    suffix := fun _ => ".CSV" }

/-- Arguments pointing `--input` at a file that does not exist (under
`envHappy`, whose filesystem holds no file at all). -/
def argsBadInput : Args := { input := some "nope.csv" }

/-- `--input` at a missing file together with `--no-plots`. -/
def argsNoPlotsBadInput : Args := { input := some "nope.csv", no_plots := true }

/-- A data frame with no columns and no rows. -/
def dfEmpty : DataFrame := { cols := [], nrows := 0 }

/-- A run whose CSV input parses to the empty frame (validation fails)
and whose csv/txt output block raises: every stage after the loader
fails. -/
def envAllFail : Env :=
  { envHappy with
    pathExists := fun _ => true
    suffix := fun _ => ".csv"
    readCsv := fun _ => dfEmpty
    csvWriteThrows := true }

/-- `--no-plots` on a CSV input that loads but fails every later stage
(under `envAllFail`). -/
def argsNoPlotsEmptyCsv : Args := { input := some "d.csv", no_plots := true }

/-- A one-row frame missing `ad_spend` and holding a textual `sales`
column. -/
def dfSalesText : DataFrame :=
  { cols :=
      [ { name := "month", numeric := false, values := [.str "Jan"] },
        { name := "sales", numeric := false, values := [.str "a lot"] } ],
    nrows := 1 }

end E01

namespace E01

/-! ### Master characterization of a run that got past the loader -/

set_option maxHeartbeats 3200000 in
theorem mainAfterLoad_eq (args : Args) (env : Env) (rep0 : Report)
    (df0 : DataFrame) (d : String) :
    mainAfterLoad args env rep0 df0 d = afterLoadState args env rep0 df0 d := by
  cases hdo : dataOkOf df0 <;>
  cases hw : env.csvWriteThrows || env.statsWriteThrows <;>
  cases hnp : args.no_plots <;>
  cases hst : staticAttemptThrows env (coerce_numeric env df0) <;>
  cases hin : interactiveAttemptThrows env (coerce_numeric env df0) <;>
    simp [mainAfterLoad, afterLoadState, hdo, hw, hnp, hst, hin,
      artifactsCsvFlagOf, artifactsStatsFlagOf,
      staticFlagOf, interactiveFlagOf, plotsOkOf, messagesOf, scoreOf,
      passOf, truthy, truthy2]

/-- On a successful load, `main` is the after-load state. -/
theorem main_ok_eq (args : Args) (env : Env) (df0 : DataFrame) (d : String)
    (h : load_data env args.input = .ok (df0, d)) :
    main args env = afterLoadState args env (skeletonReport args env) df0 d := by
  rw [← mainAfterLoad_eq]
  simp only [main, h]

/-- On a loader failure, `main` records the failure in the skeleton
report and exits with code 2. -/
theorem main_err_eq (args : Args) (env : Env) (e : LoadErr)
    (h : load_data env args.input = .error e) :
    main args env =
      { exitCode := 2,
        report := { skeletonReport args env with
          messages := (skeletonReport args env).messages ++ [loadErrMsg e],
          checks := { (skeletonReport args env).checks with
            data_load_ok := some false } },
        data_ok := false,
        plots_ok := true } := by
  simp only [main, h]

/-- Reading `data_ok` back from the after-load report agrees with the
`data_ok` local computed by `main`. -/
theorem reportDataOk_afterLoad (args : Args) (env : Env) (rep0 : Report)
    (df0 : DataFrame) (d : String) :
    reportDataOk (afterLoadState args env rep0 df0 d).report = dataOkOf df0 := rfl

/-! ### Claim theorems -/

/-- **C7.** For every data frame, `validate_dataframe` returns a record
whose `missing_columns` are exactly the required columns absent from the
frame, listed in the required-columns' order; whose `dtype_issues`
contain the advisory string for each of `sales` and `ad_spend` that is
present but non-numeric and nothing else (in particular nothing for an
absent column); and whose `row_count` equals the number of rows. -/
theorem validate_dataframe_correct (df : DataFrame) :
    (∀ c, c ∈ (validate_dataframe df).missing_columns ↔
        c ∈ REQUIRED_COLUMNS ∧ df.hasCol c = false)
    ∧ (validate_dataframe df).missing_columns.Sublist REQUIRED_COLUMNS
    ∧ (salesDtypeMsg ∈ (validate_dataframe df).dtype_issues ↔
        df.hasCol "sales" = true ∧ df.colNumeric "sales" = false)
    ∧ (adSpendDtypeMsg ∈ (validate_dataframe df).dtype_issues ↔
        df.hasCol "ad_spend" = true ∧ df.colNumeric "ad_spend" = false)
    ∧ (∀ m ∈ (validate_dataframe df).dtype_issues,
        m = salesDtypeMsg ∨ m = adSpendDtypeMsg)
    ∧ (validate_dataframe df).row_count = df.nrows := by
  have hne : salesDtypeMsg ≠ adSpendDtypeMsg := by decide
  refine ⟨?_, ?_, ?_, ?_, ?_, rfl⟩
  · intro c
    simp [validate_dataframe, List.mem_filter]
  · exact List.filter_sublist _
  · constructor
    · intro hmem
      simp only [validate_dataframe, List.mem_append] at hmem
      rcases hmem with hmem | hmem
      · by_cases h : df.hasCol "sales" && !(df.colNumeric "sales")
        · simp only [Bool.and_eq_true, Bool.not_eq_true'] at h
          exact ⟨h.1, h.2⟩
        · simp [h] at hmem
      · by_cases h : df.hasCol "ad_spend" && !(df.colNumeric "ad_spend")
        · simp [h] at hmem
          exact absurd hmem hne
        · simp [h] at hmem
    · rintro ⟨h1, h2⟩
      simp [validate_dataframe, h1, h2]
  · constructor
    · intro hmem
      simp only [validate_dataframe, List.mem_append] at hmem
      rcases hmem with hmem | hmem
      · by_cases h : df.hasCol "sales" && !(df.colNumeric "sales")
        · simp [h] at hmem
          exact absurd hmem.symm hne
        · simp [h] at hmem
      · by_cases h : df.hasCol "ad_spend" && !(df.colNumeric "ad_spend")
        · simp only [Bool.and_eq_true, Bool.not_eq_true'] at h
          exact ⟨h.1, h.2⟩
        · simp [h] at hmem
    · rintro ⟨h1, h2⟩
      simp [validate_dataframe, h1, h2]
  · intro m hmem
    simp only [validate_dataframe, List.mem_append] at hmem
    rcases hmem with hmem | hmem
    · by_cases h : df.hasCol "sales" && !(df.colNumeric "sales")
      · simp [h] at hmem
        exact Or.inl hmem
      · simp [h] at hmem
    · by_cases h : df.hasCol "ad_spend" && !(df.colNumeric "ad_spend")
      · simp [h] at hmem
        exact Or.inr hmem
      · simp [h] at hmem

/-- Witness for `validate_dataframe_correct` on a concrete frame missing
`ad_spend` and holding a textual `sales` column. -/
theorem validate_dataframe_correct_witness :
    "ad_spend" ∈ (validate_dataframe dfSalesText).missing_columns
    ∧ salesDtypeMsg ∈ (validate_dataframe dfSalesText).dtype_issues
    ∧ (validate_dataframe dfSalesText).row_count = dfSalesText.nrows :=
  ⟨((validate_dataframe_correct dfSalesText).1 "ad_spend").mpr
      ⟨by decide, by decide⟩,
   (validate_dataframe_correct dfSalesText).2.2.1.mpr ⟨by decide, by decide⟩,
   (validate_dataframe_correct dfSalesText).2.2.2.2.2⟩

/-- **C4.** The loader: no path (or the falsy empty path) yields the
fixed 6-row fixture with columns `month, sales, ad_spend` and the
constant descriptor; a non-existent path fails with the not-found error;
an existing path whose extension is not `.csv` case-insensitively fails
with the unsupported-format error; otherwise the CSV is parsed and the
descriptor includes the resolved path. -/
theorem load_data_cases (env : Env) (s : String) (hs : s ≠ "") :
    load_data env none = .ok (build_demo_data, "built-in demo data")
    ∧ build_demo_data.nrows = 6
    ∧ build_demo_data.colNames = ["month", "sales", "ad_spend"]
    ∧ (env.pathExists (env.expand s) = false →
        load_data env (some s) = .error (.notFound (env.expand s)))
    ∧ (env.pathExists (env.expand s) = true →
        strLower (env.suffix (env.expand s)) ≠ ".csv" →
        load_data env (some s) = .error (.unsupportedFormat (env.expand s)))
    ∧ (env.pathExists (env.expand s) = true →
        strLower (env.suffix (env.expand s)) = ".csv" →
        load_data env (some s) =
          .ok (env.readCsv (env.expand s), "csv:" ++ env.expand s)) := by
  refine ⟨rfl, rfl, by decide, ?_, ?_, ?_⟩
  · intro hex
    simp [load_data, hs, hex]
  · intro hex hsuf
    simp [load_data, hs, hex, hsuf]
  · intro hex hsuf
    simp [load_data, hs, hex, hsuf]

/-- Witness for `load_data_cases`: a concrete environment where the file
`data/e01.CSV` exists but its lower-cased suffix equals `.csv`, so the
parse branch fires. -/
theorem load_data_cases_witness :
    load_data envCsvUpper (some "data/e01.CSV") =
      .ok (envCsvUpper.readCsv (envCsvUpper.expand "data/e01.CSV"),
           "csv:" ++ envCsvUpper.expand "data/e01.CSV") :=
  (load_data_cases envCsvUpper "data/e01.CSV" (by decide)).2.2.2.2.2
    (by decide) (by decide)

/-- **C9.** Each chart function fails with the missing-column error
exactly when the `x` column or the `y` column is absent from the data
frame, and does not raise it when both are present. -/
theorem chart_missing_column (df : DataFrame) (x y : String) :
    ((df.hasCol x = false ∨ df.hasCol y = false) →
      plot_sales_vs_ads_static df x y = .error (.missingColumn x y)
      ∧ plot_sales_vs_ads_interactive df x y = .error (.missingColumn x y))
    ∧ (df.hasCol x = true → df.hasCol y = true →
      plot_sales_vs_ads_static df x y = .ok ()
      ∧ plot_sales_vs_ads_interactive df x y = .ok ()) := by
  constructor
  · intro h
    rcases h with h | h <;>
      simp [plot_sales_vs_ads_static, plot_sales_vs_ads_interactive, h]
  · intro hx hy
    simp [plot_sales_vs_ads_static, plot_sales_vs_ads_interactive, hx, hy]

/-- **C1.** For every run that got past the loader, the final report's
`pass` field is true iff `data_ok` holds (no missing required column and
a positive row count in the recorded validation), both text-artifact
checks are true, and either chart generation was skipped or both chart
checks are true and no chart failure was recorded (the `plots_ok`
local). -/
theorem pass_verdict_iff (args : Args) (env : Env) (df0 : DataFrame)
    (d : String) (h : load_data env args.input = .ok (df0, d)) :
    ((main args env).report.pass = true ↔
      (reportDataOk (main args env).report = true
        ∧ truthy (main args env).report.checks.artifacts_csv_ok = true
        ∧ truthy (main args env).report.checks.artifacts_stats_ok = true
        ∧ ((main args env).report.checks.plots_skipped = some true
            ∨ (truthy2 (main args env).report.checks.static_png_ok = true
              ∧ truthy2 (main args env).report.checks.interactive_html_ok = true
              ∧ (main args env).plots_ok = true)))) := by
  rw [main_ok_eq args env df0 d h, reportDataOk_afterLoad]
  cases hnp : args.no_plots <;>
  cases hdo : dataOkOf df0 <;>
  cases hst : staticAttemptThrows env (coerce_numeric env df0) <;>
  cases hin : interactiveAttemptThrows env (coerce_numeric env df0) <;>
    simp [afterLoadState, passOf, plotsOkOf, artifactsCsvFlagOf,
      artifactsStatsFlagOf, staticFlagOf, interactiveFlagOf, truthy, truthy2,
      hnp, hdo, hst, hin, and_assoc]

/-- Witness for `pass_verdict_iff`: the fully successful default run. -/
theorem pass_verdict_iff_witness :
    ((main {} envHappy).report.pass = true ↔
      (reportDataOk (main {} envHappy).report = true
        ∧ truthy (main {} envHappy).report.checks.artifacts_csv_ok = true
        ∧ truthy (main {} envHappy).report.checks.artifacts_stats_ok = true
        ∧ ((main {} envHappy).report.checks.plots_skipped = some true
            ∨ (truthy2 (main {} envHappy).report.checks.static_png_ok = true
              ∧ truthy2 (main {} envHappy).report.checks.interactive_html_ok = true
              ∧ (main {} envHappy).plots_ok = true)))) :=
  pass_verdict_iff {} envHappy build_demo_data "built-in demo data" rfl

/-- **C2.** For every run that got past the loader, the score is the sum
of 20 for the successful load, 30 if `data_ok`, 10 per successful text
artifact, and, when charts are not skipped, 15 per successful chart —
or, when charts are skipped, a flat 10 regardless of everything else. -/
theorem score_formula (args : Args) (env : Env) (df0 : DataFrame)
    (d : String) (h : load_data env args.input = .ok (df0, d)) :
    (main args env).report.score =
      (if truthy (main args env).report.checks.data_load_ok then 20 else 0)
      + (if reportDataOk (main args env).report then 30 else 0)
      + (if truthy (main args env).report.checks.artifacts_csv_ok then 10 else 0)
      + (if truthy (main args env).report.checks.artifacts_stats_ok then 10 else 0)
      + (if (main args env).report.checks.plots_skipped = some true then 10
         else
           (if truthy2 (main args env).report.checks.static_png_ok then 15 else 0)
           + (if truthy2 (main args env).report.checks.interactive_html_ok
              then 15 else 0)) := by
  rw [main_ok_eq args env df0 d h, reportDataOk_afterLoad]
  cases hnp : args.no_plots <;>
    simp [afterLoadState, scoreOf, truthy, hnp]

/-- Witness for `score_formula`: the fully successful default run. -/
theorem score_formula_witness :
    (main {} envHappy).report.score =
      (if truthy (main {} envHappy).report.checks.data_load_ok then 20 else 0)
      + (if reportDataOk (main {} envHappy).report then 30 else 0)
      + (if truthy (main {} envHappy).report.checks.artifacts_csv_ok then 10 else 0)
      + (if truthy (main {} envHappy).report.checks.artifacts_stats_ok then 10 else 0)
      + (if (main {} envHappy).report.checks.plots_skipped = some true then 10
         else
           (if truthy2 (main {} envHappy).report.checks.static_png_ok then 15 else 0)
           + (if truthy2 (main {} envHappy).report.checks.interactive_html_ok
              then 15 else 0)) :=
  score_formula {} envHappy build_demo_data "built-in demo data" rfl

/-- **C3.** The exit code is 2 exactly on a loader structural error
(whatever `--strict` says, with the report recording
`data_load_ok = false`); otherwise it is 1 when strict mode is on and
the final verdict is false, and 0 in every other case. -/
theorem exit_code_policy (args : Args) (env : Env) :
    (∀ e, load_data env args.input = .error e →
      (main args env).exitCode = 2
      ∧ (main args env).report.checks.data_load_ok = some false)
    ∧ (∀ df0 d, load_data env args.input = .ok (df0, d) →
      (main args env).exitCode =
        if args.strict = true ∧ (main args env).report.pass = false
        then 1 else 0) := by
  constructor
  · intro e he
    rw [main_err_eq args env e he]
    exact ⟨rfl, rfl⟩
  · intro df0 d h
    rw [main_ok_eq args env df0 d h]
    cases hs : args.strict <;>
    cases hp : passOf args env df0 (coerce_numeric env df0) <;>
      simp [afterLoadState, hs, hp]

/-- Witness for `exit_code_policy`: a non-existent `--input` exits with
code 2 and records the failed load. -/
theorem exit_code_policy_witness :
    (main argsBadInput envHappy).exitCode = 2
    ∧ (main argsBadInput envHappy).report.checks.data_load_ok = some false :=
  (exit_code_policy argsBadInput envHappy).1 (.notFound "nope.csv") rfl

/-- **C10.** A passing run scores exactly 100 when charts were rendered
and exactly 80 when charts were skipped; in particular a passing run
never scores below 80. -/
theorem pass_implies_score (args : Args) (env : Env) (df0 : DataFrame)
    (d : String) (h : load_data env args.input = .ok (df0, d))
    (hp : (main args env).report.pass = true) :
    (main args env).report.score =
      (if (main args env).report.checks.plots_skipped = some true
       then 80 else 100)
    ∧ 80 ≤ (main args env).report.score := by
  rw [main_ok_eq args env df0 d h] at hp ⊢
  have hp' : passOf args env df0 (coerce_numeric env df0) = true := hp
  simp only [passOf, Bool.and_eq_true] at hp'
  obtain ⟨⟨⟨hdo, hcsv, hsts⟩, hplots⟩, hok⟩ := hp'
  cases hnp : args.no_plots
  · rw [hnp] at hplots
    simp only [Bool.false_eq_true, if_false, Bool.and_eq_true] at hplots
    obtain ⟨h2s, h2i⟩ := hplots
    simp [afterLoadState, scoreOf, hnp, hdo, hcsv, hsts, h2s, h2i]
  · simp [afterLoadState, scoreOf, hnp, hdo, hcsv, hsts]

/-- Witness for `pass_implies_score`: the fully successful default
run scores 100. -/
theorem pass_implies_score_witness :
    (main {} envHappy).report.score =
      (if (main {} envHappy).report.checks.plots_skipped = some true
       then 80 else 100)
    ∧ 80 ≤ (main {} envHappy).report.score :=
  pass_implies_score {} envHappy build_demo_data "built-in demo data" rfl
    (by decide)

/-- **C5 counterexample.** On a loader structural failure (non-existent
`--input`), the written report's `checks` mapping does NOT contain all
schema keys: `data_validation`, `artifacts_csv_ok` and `plots_skipped`
are absent, refuting the claim that every run's report carries every
key of the section-6 schema. -/
theorem report_keys_counterexample :
    (main argsBadInput envHappy).report.checks.data_validation = none
    ∧ (main argsBadInput envHappy).report.checks.artifacts_csv_ok = none
    ∧ (main argsBadInput envHappy).report.checks.plots_skipped = none := by
  decide

/-- **C5 amended.** Every run's report carries all top-level keys of the
schema (they are set in the skeleton), and `checks` always carries
`data_load_ok`; the remaining `checks` keys are present exactly when the
loader succeeded (and then the chart flags hold `null` when charts were
skipped). -/
theorem report_keys_amended (args : Args) (env : Env) :
    (main args env).report.experiment = "E01"
    ∧ (main args env).report.timestamp = env.timestamp
    ∧ (main args env).report.outdir = args.outdir
    ∧ (main args env).report.input = args.input
    ∧ (main args env).report.artifacts =
        { csv := args.outdir ++ "/e01_demo_data.csv"
          stats := args.outdir ++ "/e01_demo_stats.txt"
          static_png := args.outdir ++ "/sales_vs_ads_static.png"
          interactive_html := args.outdir ++ "/sales_vs_ads_interactive.html" }
    ∧ ((main args env).report.checks.data_load_ok).isSome = true
    ∧ (((main args env).report.checks.data_validation).isSome = true
        ∧ ((main args env).report.checks.artifacts_csv_ok).isSome = true
        ∧ ((main args env).report.checks.artifacts_stats_ok).isSome = true
        ∧ ((main args env).report.checks.plots_skipped).isSome = true
        ∧ ((main args env).report.checks.static_png_ok).isSome = true
        ∧ ((main args env).report.checks.interactive_html_ok).isSome = true
      ↔ (main args env).report.checks.data_load_ok = some true) := by
  cases hload : load_data env args.input with
  | error e =>
    rw [main_err_eq args env e hload]
    simp [skeletonReport]
  | ok p =>
    obtain ⟨df0, d⟩ := p
    rw [main_ok_eq args env df0 d hload]
    refine ⟨rfl, rfl, rfl, rfl, rfl, rfl, ?_⟩
    simp only [afterLoadState, skeletonReport]
    constructor
    · intro
      trivial
    · intro
      refine ⟨rfl, rfl, rfl, rfl, ?_, ?_⟩ <;>
      · simp only [staticFlagOf, interactiveFlagOf]
        split
        · rfl
        · split <;> rfl

/-- **C6 counterexample.** A run in which exactly one of the two
text-artifact writes fails (the stats write raises, the CSV write
succeeds): because both writes sit in one `try` block whose handler sets
both flags, `artifacts_csv_ok` is recorded `false` even though the CSV
write succeeded, refuting the claim that the surviving artifact's flag
reflects its own write. -/
theorem artifact_flags_counterexample :
    envStatsFail.csvWriteThrows = false
    ∧ envStatsFail.statsWriteThrows = true
    ∧ (main {} envStatsFail).report.checks.artifacts_csv_ok = some false
    ∧ (main {} envStatsFail).report.checks.artifacts_stats_ok = some false := by
  decide

/-- **C6 amended.** When either text-artifact write fails, the failure
is caught and recorded as a message, BOTH check flags are set to false
(regardless of which write failed), and the run continues to the chart
stage. -/
theorem artifact_flags_amended (args : Args) (env : Env) (df0 : DataFrame)
    (d : String) (h : load_data env args.input = .ok (df0, d))
    (hw : (env.csvWriteThrows || env.statsWriteThrows) = true) :
    (main args env).report.checks.artifacts_csv_ok = some false
    ∧ (main args env).report.checks.artifacts_stats_ok = some false
    ∧ artifactsErrMsg env ∈ (main args env).report.messages
    ∧ (main args env).report.checks.plots_skipped = some args.no_plots := by
  rw [main_ok_eq args env df0 d h]
  simp [afterLoadState, artifactsCsvFlagOf, artifactsStatsFlagOf,
    messagesOf, skeletonReport, hw]

/-- Witness for `artifact_flags_amended`: the default run against
`envStatsFail`. -/
theorem artifact_flags_amended_witness :
    (main {} envStatsFail).report.checks.artifacts_csv_ok = some false
    ∧ (main {} envStatsFail).report.checks.artifacts_stats_ok = some false
    ∧ artifactsErrMsg envStatsFail ∈ (main {} envStatsFail).report.messages
    ∧ (main {} envStatsFail).report.checks.plots_skipped =
        some (Args.no_plots {}) :=
  artifact_flags_amended {} envStatsFail build_demo_data
    "built-in demo data" rfl rfl

/-- **C8 counterexample.** A run invoked with the skip-charts flag whose
loader fails: the report has no `plots_skipped` entry at all and the
score is 0, so the flat +10 environment-check credit is NOT granted,
refuting the claim for "every run invoked with the skip-charts flag". -/
theorem no_plots_counterexample :
    argsNoPlotsBadInput.no_plots = true
    ∧ (main argsNoPlotsBadInput envHappy).report.checks.plots_skipped = none
    ∧ (main argsNoPlotsBadInput envHappy).report.score = 0 := by
  decide

/-- **C8 amended.** For every run with the skip-charts flag in which the
loader succeeded, the report records `plots_skipped = true`, both chart
flags as `null` (neither true nor false), and the score includes the
flat +10 credit on top of whatever the other stages earned — even when
every one of them failed. -/
theorem no_plots_amended (args : Args) (env : Env) (df0 : DataFrame)
    (d : String) (h : load_data env args.input = .ok (df0, d))
    (hnp : args.no_plots = true) :
    (main args env).report.checks.plots_skipped = some true
    ∧ (main args env).report.checks.static_png_ok = some none
    ∧ (main args env).report.checks.interactive_html_ok = some none
    ∧ (main args env).report.score =
        (if truthy (main args env).report.checks.data_load_ok then 20 else 0)
        + (if reportDataOk (main args env).report then 30 else 0)
        + (if truthy (main args env).report.checks.artifacts_csv_ok
           then 10 else 0)
        + (if truthy (main args env).report.checks.artifacts_stats_ok
           then 10 else 0)
        + 10 := by
  rw [main_ok_eq args env df0 d h, reportDataOk_afterLoad]
  simp [afterLoadState, scoreOf, staticFlagOf, interactiveFlagOf, truthy, hnp]

/-- Witness for `no_plots_amended`: `--no-plots` with an input CSV that
parses to the empty frame and failing artifact writes — every stage
after the loader fails, yet the +10 credit is granted (score 30). -/
theorem no_plots_amended_witness :
    (main argsNoPlotsEmptyCsv envAllFail).report.checks.plots_skipped = some true
    ∧ (main argsNoPlotsEmptyCsv envAllFail).report.checks.static_png_ok = some none
    ∧ (main argsNoPlotsEmptyCsv envAllFail).report.checks.interactive_html_ok =
        some none
    ∧ (main argsNoPlotsEmptyCsv envAllFail).report.score =
        (if truthy (main argsNoPlotsEmptyCsv envAllFail).report.checks.data_load_ok
         then 20 else 0)
        + (if reportDataOk (main argsNoPlotsEmptyCsv envAllFail).report
           then 30 else 0)
        + (if truthy (main argsNoPlotsEmptyCsv envAllFail).report.checks.artifacts_csv_ok
           then 10 else 0)
        + (if truthy (main argsNoPlotsEmptyCsv envAllFail).report.checks.artifacts_stats_ok
           then 10 else 0)
        + 10 :=
  no_plots_amended argsNoPlotsEmptyCsv envAllFail dfEmpty "csv:d.csv" rfl rfl

/-- Witness for `chart_missing_column`: on the built-in fixture with the
default column names both chart functions pass the column validation,
and with a misspelled `x` column both fail with the missing-column
error. -/
theorem chart_missing_column_witness :
    (plot_sales_vs_ads_static build_demo_data "ad_spend" "sales" = .ok ()
      ∧ plot_sales_vs_ads_interactive build_demo_data "ad_spend" "sales" = .ok ())
    ∧ (plot_sales_vs_ads_static build_demo_data "ads" "sales" =
        .error (.missingColumn "ads" "sales")
      ∧ plot_sales_vs_ads_interactive build_demo_data "ads" "sales" =
        .error (.missingColumn "ads" "sales")) :=
  ⟨(chart_missing_column build_demo_data "ad_spend" "sales").2
      (by decide) (by decide),
   (chart_missing_column build_demo_data "ads" "sales").1
      (Or.inl (by decide))⟩

end E01
